import Mathlib

/-!
Verification of the `pursue` shell-prompt helper (Rust).

The development shallowly embeds the two variants of the `precmd` module:
`src/precmd/mod.rs` (namespace `PrecmdMod`: status-walk dirty check and the
plain-text renderer) and `src/precmd.rs` (namespace `Precmd`: the
subprocess dirty check and the ahead/behind divergence calculation).
Repository state observable through the git2 bindings is modelled by
`Pursue.RepoModel`; a Rust `unwrap()` on a failed call is modelled by the
embedding returning `none` (the panic: no value is produced).
-/

namespace Pursue

/-- Status bitflag values of git2 (libgit2 `git_status_t`). `CURRENT` is the
zero flag set, exactly as in libgit2. -/
def Status.CURRENT : Nat := 0

/-- Staged new file: libgit2 GIT_STATUS_INDEX_NEW = 1 shifted left 0. -/
def Status.INDEX_NEW : Nat := 1

/-- Staged modification: GIT_STATUS_INDEX_MODIFIED = 1 shifted left 1. -/
def Status.INDEX_MODIFIED : Nat := 2

/-- Staged deletion: GIT_STATUS_INDEX_DELETED = 1 shifted left 2. -/
def Status.INDEX_DELETED : Nat := 4

/-- Staged rename: GIT_STATUS_INDEX_RENAMED = 1 shifted left 3. -/
def Status.INDEX_RENAMED : Nat := 8

/-- Staged typechange: GIT_STATUS_INDEX_TYPECHANGE = 1 shifted left 4. -/
def Status.INDEX_TYPECHANGE : Nat := 16

/-- Untracked file in the working tree: GIT_STATUS_WT_NEW = 1 shifted left 7. -/
def Status.WT_NEW : Nat := 128

/-- Tracked file modified in the working tree: GIT_STATUS_WT_MODIFIED. -/
def Status.WT_MODIFIED : Nat := 256

/-- Tracked file deleted from the working tree: GIT_STATUS_WT_DELETED. -/
def Status.WT_DELETED : Nat := 512

/-- Tracked file typechanged in the working tree: GIT_STATUS_WT_TYPECHANGE. -/
def Status.WT_TYPECHANGE : Nat := 1024

/-- Tracked file renamed in the working tree: GIT_STATUS_WT_RENAMED. -/
def Status.WT_RENAMED : Nat := 2048

/-- Ignored path: GIT_STATUS_IGNORED = 1 shifted left 14. -/
def Status.IGNORED : Nat := 16384

/-- Conflicted path: GIT_STATUS_CONFLICTED = 1 shifted left 15. -/
def Status.CONFLICTED : Nat := 32768

/-- Mask of all staged (index) status bits. -/
def Status.stagedMask : Nat :=
  Status.INDEX_NEW |||
    Status.INDEX_MODIFIED |||
    Status.INDEX_DELETED |||
    Status.INDEX_RENAMED |||
    Status.INDEX_TYPECHANGE

/-- Embedding of git2 `Status::empty()`. -/
def Status.emptySet : Nat := 0

/-- Embedding of git2 `Status::is_empty`: no bit is set. -/
def Status.is_empty (s : Nat) : Bool := s == 0

/-- Embedding of git2 `Status::intersects`: the two flag sets share a bit. -/
def Status.intersects (s t : Nat) : Bool := Nat.land s t != 0

/-- Embedding of git2 `Status::toggle`: exclusive-or of flag sets. -/
def Status.toggle (s t : Nat) : Nat := Nat.xor s t

/-- Error codes of git2 `ErrorCode` relevant to `branch_name`
(src/precmd/mod.rs line 75 compares against `ErrorCode::UnbornBranch`). -/
inductive ErrorCode where
  | UnbornBranch : ErrorCode
  | NotFound : ErrorCode
  | NotBranch : ErrorCode
  | Ambiguous : ErrorCode
  | BareRepo : ErrorCode
  | GenericError : ErrorCode
deriving DecidableEq

/-- Result of `repo.head()`: on success the reference's `shorthand()` is an
`Option String` (git2 returns `None` when the name is not valid UTF-8); on
failure an error carrying its `ErrorCode`. -/
inductive HeadResult where
  | ok (shorthand : Option String) : HeadResult
  | err (code : ErrorCode) : HeadResult

/-- The repository state observable through the git2 calls the program makes:
`repo.head()`, `repo.revparse_single("HEAD").id()`, the id resolved by
`repo.revparse_ext` for the upstream, `repo.graph_ahead_behind`, and
`repo.statuses` (entry status bitmasks, computed with
`StatusOptions.include_untracked(true)`; `none` models an `Err` result). -/
structure RepoModel where
  head : HeadResult
  revparse_single_HEAD : Option Nat
  revparse_ext_upstream : Option Nat
  graph_ahead_behind : Nat → Nat → Option (Nat × Nat)
  statuses : Option (List Nat)

/-- Decides whether `pat` is a prefix of `s`, character by character. -/
def isPrefixOf : List Char → List Char → Bool
  | [], _ => true
  | _ :: _, [] => false
  | p :: ps, c :: cs => p == c && isPrefixOf ps cs

/-- Replaces the first (leftmost) occurrence of `pat` in `s` by `repl`,
leaving `s` unchanged when `pat` never occurs. This is the behaviour of
`Regex::new(pat).replace(s, repl)` when `pat` contains no regex
metacharacters, the situation of `format_path` (the pattern is a
home-directory path string). -/
def replaceFirst (pat repl : List Char) : List Char → List Char
  | [] => if isPrefixOf pat [] then repl ++ List.drop pat.length [] else []
  | c :: cs =>
    if isPrefixOf pat (c :: cs) then repl ++ List.drop pat.length (c :: cs)
    else c :: replaceFirst pat repl cs

/-- Embedding of `format_path` (src/precmd/mod.rs lines 59-67 and
src/precmd.rs lines 102-110, identical): replace the first regex match of
`home_dir` inside `cwd` by a tilde, then apply the external `tico`
shortener when requested. The external shortener is passed as a function
parameter. -/
def format_path (cwd home_dir : String) (shorten : Bool)
    (tico : String → String) : String :=
  let path := String.mk (replaceFirst home_dir.data ("~".data) cwd.data)
  if shorten then tico path else path

namespace PrecmdMod

/-- The prompt record of src/precmd/mod.rs lines 12-21. -/
structure PrePrompt where
  path : String
  user_name : String
  host : String
  vcs_branch : String
  vcs_is_dirty : Bool
  vcs_is_behind_remote : Bool
  vcs_is_ahead_of_remote : Bool

/-- Embedding of `impl fmt::Display for PrePrompt` (src/precmd/mod.rs lines
23-55). Each `write!` appends to the formatter's output, modelled by
threading the accumulated string through the same sequence of conditional
appends. -/
def PrePrompt.fmt (p : PrePrompt) : String :=
  let f0 := p.path
  let f1 :=
    if p.vcs_branch ≠ "" then
      let g0 := f0 ++ " " ++ p.vcs_branch
      let g1 := if p.vcs_is_dirty then g0 ++ "*" else g0
      let g2 := if p.vcs_is_behind_remote then g1 ++ "⭭" else g1
      if p.vcs_is_ahead_of_remote then g2 ++ "⭫" else g2
    else f0
  if p.user_name ≠ "" ∧ p.host ≠ "" then
    f1 ++ " " ++ p.user_name ++ "@" ++ p.host
  else f1

/-- Embedding of `branch_name` (src/precmd/mod.rs lines 69-82, identical in
src/precmd.rs lines 140-153). The source calls `head.shorthand().unwrap()`;
a `None` shorthand therefore panics, modelled by the result `none`. -/
def branch_name (repo : RepoModel) : Option String :=
  match repo.head with
  | HeadResult.ok sh =>
    match sh with
    | some s => some s
    | none => none
  | HeadResult.err e =>
    if e = ErrorCode.UnbornBranch then some "master" else some ""

/-- The local `clean_status` value of `is_dirty` (src/precmd/mod.rs lines
93-95): `Status::empty()` with `CURRENT` and then `IGNORED` toggled in. -/
def clean_status : Nat :=
  Status.toggle (Status.toggle Status.emptySet Status.CURRENT) Status.IGNORED

/-- Embedding of `is_dirty` (src/precmd/mod.rs lines 84-99): walk the status
entries (untracked included by `StatusOptions`), treat a failed status query
as clean, and report dirty when some entry has a non-empty status sharing no
bit with `clean_status`. -/
def is_dirty (repo : RepoModel) : Bool :=
  match repo.statuses with
  | none => false
  | some statuses =>
    statuses.any fun entry =>
      !(Status.is_empty entry) && !(Status.intersects entry clean_status)

end PrecmdMod

namespace Precmd

/-- Embedding of `is_dirty` (src/precmd.rs lines 157-167): run
`git diff --no-ext-diff --quiet --exit-code` and report dirty exactly when
the command ran and exited unsuccessfully. The argument is the result of
`Command::status()`: `none` for a spawn error, otherwise `some` of the exit
status' `success()` value. -/
def is_dirty (cmdStatus : Option Bool) : Bool :=
  match cmdStatus with
  | some success => !success
  | none => false

/-- Embedding of `is_ahead_behind_remote` (src/precmd.rs lines 174-181).
The source unwraps `repo.revparse_single("HEAD")`, so a failed HEAD
resolution panics, modelled by `none`; afterwards a failed upstream
resolution or graph walk collapses to `(false, false)` through
`ok / and_then / map / unwrap_or`. The pair is ordered ahead then behind. -/
def is_ahead_behind_remote (repo : RepoModel) : Option (Bool × Bool) :=
  match repo.revparse_single_HEAD with
  | none => none
  | some head =>
    some ((((repo.revparse_ext_upstream.bind
        fun upstream => repo.graph_ahead_behind head upstream).map
          fun ab => (decide (ab.1 > 0), decide (ab.2 > 0))).getD
            (false, false)))

end Precmd

/-! Theorems settling the claims. -/

/-- C5: the branch resolver returns exactly "master" on the unborn-branch
condition, the branch shorthand when HEAD resolves to a named branch, and
the empty string on every other resolution failure. -/
theorem branch_name_cases :
    ∀ (repo : RepoModel) (s : String),
      (repo.head = HeadResult.ok (some s) →
        PrecmdMod.branch_name repo = some s) ∧
      (repo.head = HeadResult.err ErrorCode.UnbornBranch →
        PrecmdMod.branch_name repo = some "master") ∧
      (∀ e : ErrorCode, e ≠ ErrorCode.UnbornBranch →
        repo.head = HeadResult.err e →
        PrecmdMod.branch_name repo = some "") := by
  intro repo s
  refine ⟨fun h => ?_, fun h => ?_, fun e he h => ?_⟩ <;>
    simp [PrecmdMod.branch_name, h]
  intro h2
  exact absurd h2 he

/-- Witness for C5 at concrete repository states: a resolved branch named
"dev", an unborn-branch error, and a not-found error. -/
theorem branch_name_cases_witness :
    PrecmdMod.branch_name
        (RepoModel.mk (HeadResult.ok (some "dev")) none none
          (fun _ _ => none) none) = some "dev" ∧
    PrecmdMod.branch_name
        (RepoModel.mk (HeadResult.err ErrorCode.UnbornBranch) none none
          (fun _ _ => none) none) = some "master" ∧
    PrecmdMod.branch_name
        (RepoModel.mk (HeadResult.err ErrorCode.NotFound) none none
          (fun _ _ => none) none) = some "" := by
  refine ⟨(branch_name_cases _ "dev").1 rfl,
          (branch_name_cases _ "dev").2.1 rfl,
          (branch_name_cases _ "dev").2.2 ErrorCode.NotFound (by decide) rfl⟩

/-- C6 (code bug evidence): when HEAD resolves but its shorthand is
unavailable (not valid UTF-8), `branch_name` evaluates to `none`, the model
of the `unwrap()` panic at src/precmd/mod.rs line 71 — it does not return
any of the three documented values. -/
theorem branch_name_panics_on_missing_shorthand :
    PrecmdMod.branch_name
        (RepoModel.mk (HeadResult.ok none) none none
          (fun _ _ => none) none) = none := rfl

/-- C2 (code bug evidence): in a freshly initialized repository with zero
commits, `revparse_single("HEAD")` fails, and the `unwrap()` at
src/precmd.rs line 175 panics — modelled by the result `none` — instead of
collapsing to (false, false); the `render` pipeline would abort before
printing a status line. -/
theorem is_ahead_behind_remote_panics_on_unborn_HEAD :
    Precmd.is_ahead_behind_remote
        (RepoModel.mk (HeadResult.err ErrorCode.UnbornBranch) none none
          (fun _ _ => none) (some [])) = none := rfl

/-- C7: once HEAD resolves to a commit, a missing or unresolvable upstream
yields (false, false), and a resolved upstream with computed graph counts
yields ahead exactly when the ahead count is positive and behind exactly
when the behind count is positive (the pair is ordered ahead, behind). -/
theorem is_ahead_behind_remote_upstream_cases :
    ∀ (repo : RepoModel) (h : Nat), repo.revparse_single_HEAD = some h →
      (repo.revparse_ext_upstream = none →
        Precmd.is_ahead_behind_remote repo = some (false, false)) ∧
      (∀ u a b : Nat, repo.revparse_ext_upstream = some u →
        repo.graph_ahead_behind h u = some (a, b) →
        Precmd.is_ahead_behind_remote repo
          = some (decide (a > 0), decide (b > 0))) := by
  intro repo h hh
  constructor
  · intro hu
    simp [Precmd.is_ahead_behind_remote, hh, hu]
  · intro u a b hu hg
    simp [Precmd.is_ahead_behind_remote, hh, hu, hg]

/-- Witness for C7 at concrete repository states: HEAD resolved with no
upstream, and HEAD resolved with an upstream two commits behind it. -/
theorem is_ahead_behind_remote_upstream_cases_witness :
    Precmd.is_ahead_behind_remote
        (RepoModel.mk (HeadResult.ok (some "m")) (some 5) none
          (fun _ _ => none) none) = some (false, false) ∧
    Precmd.is_ahead_behind_remote
        (RepoModel.mk (HeadResult.ok (some "m")) (some 5) (some 7)
          (fun _ _ => some (2, 0)) none) = some (true, false) := by
  constructor
  · exact (is_ahead_behind_remote_upstream_cases _ 5 rfl).1 rfl
  · exact (is_ahead_behind_remote_upstream_cases _ 5 rfl).2 7 2 0 rfl rfl

/-- C9: a failed status probe never reports dirty — the status-walk variant
returns false when the statuses query errors, and the subprocess variant
returns false when the external git command cannot be run. -/
theorem probe_failure_not_dirty :
    (∀ (head : HeadResult) (r u : Option Nat)
        (g : Nat → Nat → Option (Nat × Nat)),
      PrecmdMod.is_dirty (RepoModel.mk head r u g none) = false) ∧
    Precmd.is_dirty none = false :=
  ⟨fun _ _ _ _ => rfl, rfl⟩

/-- Helper: the clean-status mask computed by `is_dirty` is the `IGNORED`
bit alone, because `CURRENT` is the zero flag set. -/
theorem clean_status_eq : PrecmdMod.clean_status = Status.IGNORED := rfl

/-- Helper: a status entry passes the dirtiness test of `is_dirty` exactly
when it is non-empty and does not carry the `IGNORED` bit. -/
theorem dirty_entry_test (entry : Nat) :
    (!(Status.is_empty entry) &&
        !(Status.intersects entry PrecmdMod.clean_status)) = true ↔
      entry ≠ 0 ∧ Nat.land entry Status.IGNORED = 0 := by
  rw [clean_status_eq]
  simp [Status.is_empty, Status.intersects]

/-- C1: an untracked, non-ignored status entry makes the status-walk
`is_dirty` true; entries carrying the `IGNORED` bit never make it true; a
lone untracked file in an otherwise clean repository reports dirty, and the
empty status list after its removal reports clean. -/
theorem untracked_files_make_dirty :
    (∀ (repo : RepoModel) (entries : List Nat) (entry : Nat),
        repo.statuses = some entries → entry ∈ entries →
        Nat.land entry Status.WT_NEW ≠ 0 → Nat.land entry Status.IGNORED = 0 →
        PrecmdMod.is_dirty repo = true) ∧
    (∀ (repo : RepoModel) (entries : List Nat),
        repo.statuses = some entries →
        (∀ e ∈ entries, Nat.land e Status.IGNORED ≠ 0) →
        PrecmdMod.is_dirty repo = false) ∧
    (∀ repo : RepoModel, repo.statuses = some [Status.WT_NEW] →
        PrecmdMod.is_dirty repo = true) ∧
    (∀ repo : RepoModel, repo.statuses = some [] →
        PrecmdMod.is_dirty repo = false) := by
  refine ⟨?_, ?_, ?_, ?_⟩
  · intro repo entries entry hst hmem hwt hig
    have h0 : entry ≠ 0 := by
      intro h
      apply hwt
      rw [h]
      decide
    simp only [PrecmdMod.is_dirty, hst]
    exact List.any_eq_true.mpr ⟨entry, hmem, (dirty_entry_test entry).mpr ⟨h0, hig⟩⟩
  · intro repo entries hst hall
    simp only [PrecmdMod.is_dirty, hst]
    refine List.any_eq_false.mpr ?_
    intro e hmem
    intro hcontra
    exact absurd ((dirty_entry_test e).mp hcontra).2 (hall e hmem)
  · intro repo hst
    simp only [PrecmdMod.is_dirty, hst]
    rfl
  · intro repo hst
    simp only [PrecmdMod.is_dirty, hst]
    rfl

/-- Witness for C1 at concrete repository states: one untracked entry means
dirty, one ignored entry means clean, and the empty status list means
clean. -/
theorem untracked_files_make_dirty_witness :
    PrecmdMod.is_dirty
        (RepoModel.mk (HeadResult.ok (some "master")) none none
          (fun _ _ => none) (some [Status.WT_NEW])) = true ∧
    PrecmdMod.is_dirty
        (RepoModel.mk (HeadResult.ok (some "master")) none none
          (fun _ _ => none) (some [Status.IGNORED])) = false ∧
    PrecmdMod.is_dirty
        (RepoModel.mk (HeadResult.ok (some "master")) none none
          (fun _ _ => none) (some [])) = false := by
  refine ⟨untracked_files_make_dirty.1 _ [Status.WT_NEW] Status.WT_NEW rfl
            (by simp) (by decide) (by decide),
          untracked_files_make_dirty.2.1 _ [Status.IGNORED] rfl (by decide),
          untracked_files_make_dirty.2.2.2 _ rfl⟩

/-- C8: a staged (index) status entry without the `IGNORED` bit makes the
status-walk `is_dirty` true, and `is_dirty` is true exactly when some
status entry (tracked-modified, staged, or untracked — any non-empty
status) lacks the `IGNORED` bit. -/
theorem staged_changes_make_dirty :
    (∀ (repo : RepoModel) (entries : List Nat) (entry : Nat),
        repo.statuses = some entries → entry ∈ entries →
        Nat.land entry Status.stagedMask ≠ 0 →
        Nat.land entry Status.IGNORED = 0 →
        PrecmdMod.is_dirty repo = true) ∧
    (∀ repo : RepoModel,
        PrecmdMod.is_dirty repo = true ↔
          ∃ entries, repo.statuses = some entries ∧
            ∃ entry ∈ entries, entry ≠ 0 ∧
              Nat.land entry Status.IGNORED = 0) := by
  constructor
  · intro repo entries entry hst hmem hstaged hig
    have h0 : entry ≠ 0 := by
      intro h
      apply hstaged
      rw [h]
      decide
    simp only [PrecmdMod.is_dirty, hst]
    exact List.any_eq_true.mpr ⟨entry, hmem, (dirty_entry_test entry).mpr ⟨h0, hig⟩⟩
  · intro repo
    cases hst : repo.statuses with
    | none => simp [PrecmdMod.is_dirty, hst]
    | some entries =>
      simp only [PrecmdMod.is_dirty, hst]
      rw [List.any_eq_true]
      constructor
      · rintro ⟨e, hmem, he⟩
        exact ⟨entries, rfl, e, hmem, (dirty_entry_test e).mp he⟩
      · rintro ⟨entries2, heq, e, hmem, he⟩
        cases heq
        exact ⟨e, hmem, (dirty_entry_test e).mpr he⟩

/-- Witness for C8 at a concrete repository state: a lone staged
modification reports dirty. -/
theorem staged_changes_make_dirty_witness :
    PrecmdMod.is_dirty
        (RepoModel.mk (HeadResult.ok (some "master")) none none
          (fun _ _ => none) (some [Status.INDEX_MODIFIED])) = true :=
  staged_changes_make_dirty.1 _ [Status.INDEX_MODIFIED] Status.INDEX_MODIFIED
    rfl (by simp) (by decide) (by decide)

/-- C3: with a non-empty branch the rendered line is the path, a space, the
branch, then — each appended with no space — the dirty star when dirty, the
behind marker when behind, the ahead marker when ahead (behind strictly
before ahead), then a space and user at host when the identity is present;
on the spec's flagship input the output is exactly the expected string. -/
theorem preprompt_fmt_branch_ordering :
    (∀ p : PrecmdMod.PrePrompt, p.vcs_branch ≠ "" →
      PrecmdMod.PrePrompt.fmt p =
        p.path ++ " " ++ p.vcs_branch
          ++ (if p.vcs_is_dirty then "*" else "")
          ++ (if p.vcs_is_behind_remote then "⭭" else "")
          ++ (if p.vcs_is_ahead_of_remote then "⭫" else "")
          ++ (if p.user_name ≠ "" ∧ p.host ≠ "" then
                " " ++ p.user_name ++ "@" ++ p.host
              else "")) ∧
    PrecmdMod.PrePrompt.fmt
        (PrecmdMod.PrePrompt.mk "~" "user" "host" "master" true true true)
      = "~ master*⭭⭫ user@host" := by
  constructor
  · intro p hb
    by_cases hid : p.user_name ≠ "" ∧ p.host ≠ "" <;>
      cases hd : p.vcs_is_dirty <;>
        cases hbh : p.vcs_is_behind_remote <;>
          cases hah : p.vcs_is_ahead_of_remote <;>
            simp only [PrecmdMod.PrePrompt.fmt, hb, hid, hd, hbh, hah, ne_eq,
              not_false_eq_true, ite_true, ite_false, if_true, if_false,
              and_self, Bool.false_eq_true, Bool.true_eq_false,
              String.append_empty, String.append_assoc]
  · decide

/-- Witness for C3 at a concrete prompt record with a non-empty branch:
dirty and ahead but not behind, with an identity present. -/
theorem preprompt_fmt_branch_ordering_witness :
    PrecmdMod.PrePrompt.fmt
        (PrecmdMod.PrePrompt.mk "~" "user" "host" "dev" true false true)
      = "~ dev*⭫ user@host" := by
  have h := preprompt_fmt_branch_ordering.1
    (PrecmdMod.PrePrompt.mk "~" "user" "host" "dev" true false true) (by decide)
  rw [h]
  decide

/-- C4: with an empty branch name the rendered line carries no VCS segment
at all, whatever the dirty and divergence flags; on the path alone the
output is exactly the path with no trailing space. -/
theorem preprompt_fmt_empty_branch :
    (∀ p : PrecmdMod.PrePrompt, p.vcs_branch = "" →
      PrecmdMod.PrePrompt.fmt p =
        p.path ++ (if p.user_name ≠ "" ∧ p.host ≠ "" then
            " " ++ p.user_name ++ "@" ++ p.host
          else "")) ∧
    (∀ d bh ah : Bool,
      PrecmdMod.PrePrompt.fmt
          (PrecmdMod.PrePrompt.mk "~/some/dir" "" "" "" d bh ah)
        = "~/some/dir") := by
  constructor
  · intro p hb
    by_cases hid : p.user_name ≠ "" ∧ p.host ≠ "" <;>
      simp only [PrecmdMod.PrePrompt.fmt, hb, hid, ne_eq, not_false_eq_true,
        not_true_eq_false, ite_true, ite_false, if_true, if_false, and_self,
        String.append_empty, String.append_assoc]
  · intro d bh ah
    rfl

/-- Witness for C4 at the concrete prompt record with empty branch and all
flags defaulted. -/
theorem preprompt_fmt_empty_branch_witness :
    PrecmdMod.PrePrompt.fmt
        (PrecmdMod.PrePrompt.mk "~/some/dir" "" "" "" false false false)
      = "~/some/dir" := by
  have h := preprompt_fmt_empty_branch.1
    (PrecmdMod.PrePrompt.mk "~/some/dir" "" "" "" false false false) rfl
  rw [h]
  decide

/-- Helper: a list is a prefix of itself followed by anything. -/
theorem isPrefixOf_append (pat rest : List Char) :
    isPrefixOf pat (pat ++ rest) = true := by
  induction pat with
  | nil => rfl
  | cons c cs ih => simp [isPrefixOf, ih]

/-- Helper: when the pattern is a prefix, `replaceFirst` replaces it in
place. -/
theorem replaceFirst_head_match (pat repl s : List Char)
    (h : isPrefixOf pat s = true) :
    replaceFirst pat repl s = repl ++ List.drop pat.length s := by
  cases s <;> simp [replaceFirst, h]

/-- Helper: when the pattern does not match at the head, `replaceFirst`
keeps the head character and recurses. -/
theorem replaceFirst_cons (pat repl : List Char) (c : Char) (cs : List Char)
    (h : isPrefixOf pat (c :: cs) = false) :
    replaceFirst pat repl (c :: cs) = c :: replaceFirst pat repl cs := by
  simp [replaceFirst, h]

/-- Helper: when the pattern matches nowhere strictly inside `pre`,
`replaceFirst` replaces the occurrence of the pattern right after `pre`. -/
theorem replaceFirst_first_match (pat repl post : List Char) :
    ∀ pre : List Char,
      (∀ j, j < pre.length →
        isPrefixOf pat (List.drop j (pre ++ pat ++ post)) = false) →
      replaceFirst pat repl (pre ++ pat ++ post) = pre ++ repl ++ post := by
  intro pre
  induction pre with
  | nil =>
    intro _
    simp only [List.nil_append]
    rw [replaceFirst_head_match _ _ _ (isPrefixOf_append pat post), List.drop_left]
  | cons c cs ih =>
    intro h
    have h0 : isPrefixOf pat (c :: (cs ++ pat ++ post)) = false := by
      have hc := h 0 (by simp)
      simpa using hc
    have hs : ∀ j, j < cs.length →
        isPrefixOf pat (List.drop j (cs ++ pat ++ post)) = false := by
      intro j hj
      have hc := h (j + 1) (by simpa using Nat.succ_lt_succ hj)
      simpa using hc
    simp only [List.cons_append]
    rw [replaceFirst_cons _ _ _ _ h0, ih hs]

/-- C10: `format_path` substitutes a tilde for the first occurrence of the
home-directory string anywhere inside the working directory, a leading
prefix or not; on the cwd /mnt/home/user/x with home directory /home/user
the interior occurrence is replaced, yielding /mnt~/x. -/
theorem format_path_replaces_first_interior_match :
    (∀ (pre post : List Char) (home_dir : String) (tico : String → String),
      (∀ j, j < pre.length →
        isPrefixOf home_dir.data
          (List.drop j (pre ++ home_dir.data ++ post)) = false) →
      format_path (String.mk (pre ++ home_dir.data ++ post)) home_dir false tico
        = String.mk (pre ++ "~".data ++ post)) ∧
    (∀ tico : String → String,
      format_path "/mnt/home/user/x" "/home/user" false tico = "/mnt~/x") := by
  constructor
  · intro pre post home_dir tico h
    show String.mk (replaceFirst home_dir.data ("~".data)
        (String.mk (pre ++ home_dir.data ++ post)).data) = _
    exact congrArg String.mk (replaceFirst_first_match _ _ _ _ h)
  · intro tico
    rfl

/-- Witness for C10 at the concrete interior-match input. -/
theorem format_path_replaces_first_interior_match_witness :
    format_path "/mnt/home/user/x" "/home/user" false id = "/mnt~/x" := by
  have h := format_path_replaces_first_interior_match.1
    ("/mnt".data) ("/x".data) "/home/user" id (by decide)
  exact h

end Pursue
